import Mathlib

/-!
Verification of the slab-depot / block-allocator subsystem of this
repository (src/vdo/block-allocator.c, src/vdo/allocating-vio.c) and of
the UDS on-disk configuration codec (src/uds/config.c), by shallow
embedding of the C sources into Lean.

Machine integers are modelled as Nat with explicit reductions modulo
2 ^ 32 or 2 ^ 64 where overflow matters.  Fallible C functions return
Except; a C execution that would dereference NULL is modelled as an
Option whose none case marks the crash.
-/

/-- Error and status codes used by the embedded functions (a subset of the
C status codes, one constructor per distinct code that the embedded code
can produce or compare against). -/
inductive Err where
  | success
  | noSpace
  | readOnly
  | invalidState
  | noIndex
  | corruptComponent
  | corruptFile
  | bufferError
  | lockError
  deriving DecidableEq, Repr

namespace BlockAlloc

/-- Fuel-driven floor base-two logarithm; with fuel at least n this equals
Nat.log2 n (proved below), and being structurally recursive it evaluates
inside the kernel. -/
def log2fuel : Nat → Nat → Nat
  | 0, _ => 0
  | fuel + 1, n => if n ≥ 2 then 1 + log2fuel fuel (n / 2) else 0

/-- The C helper log_base_two from num-utils.h computes the floor of the
base-two logarithm of its argument (0 for inputs 0 and 1). -/
def log_base_two (n : Nat) : Nat := log2fuel n n

/-- Translation of calculate_slab_priority (block-allocator.c lines
70-107).  The slab is summarized by the three inputs the C function
reads: the allocator's unopened_slab_priority, whether the slab journal
is blank, and the slab's free block count. -/
def calculate_slab_priority (unopened_slab_priority : Nat)
    (journal_blank : Bool) (free_blocks : Nat) : Nat :=
  if free_blocks = 0 then 0
  else if journal_blank then unopened_slab_priority
  else
    let priority := 1 + log_base_two free_blocks
    if priority < unopened_slab_priority then priority else priority + 1

/-- Translation of the unopened_slab_priority assignment in
allocate_components (block-allocator.c lines 280-281):
1 + log_base_two((max_free_blocks * 3) / 4). -/
def unopened_slab_priority_of (data_blocks : Nat) : Nat :=
  1 + log_base_two (data_blocks * 3 / 4)

/-- Translation of the max_priority computation in allocate_components
(block-allocator.c line 221): 2 + log_base_two(max_free_blocks). -/
def max_priority_of (data_blocks : Nat) : Nat :=
  2 + log_base_two data_blocks

/-- A reference counter: value 0 is free, a positive value is a shared
count, and provisional is the out-of-range sentinel for an optimistic
claim that has not yet been journaled (spec section 4.2; ref-counts.c is
not part of this tree). -/
inductive RefCount where
  | provisional
  | value (n : Nat)
  deriving DecidableEq

def RefCount.isFree : RefCount → Bool
  | .value 0 => true
  | _ => false

/-- The per-slab counter array together with the search cursor. -/
structure RefCounts where
  counters : List RefCount
  search_cursor : Nat
  deriving DecidableEq

def RefCounts.free_blocks (rc : RefCounts) : Nat :=
  rc.counters.countP (·.isFree)

/-- Index of the first free counter, scanning from the cursor and
wrapping around once. -/
def findFreeFrom (counters : List RefCount) (start : Nat) : Option Nat :=
  ((List.range counters.length).map (fun i => (start + i) % counters.length)).find?
    (fun j => (counters.getD j .provisional).isFree)

/-- Modelled from the spec: vdo_allocate_unreferenced_block (ref-counts.c,
not in this tree) scans the counter array from the search cursor,
wrapping once, returns the first counter equal to zero after setting it
to provisional and advancing the cursor past it, and fails with NO_SPACE
when no zero counter exists.  The returned number is the slab-relative
block index. -/
def vdo_allocate_unreferenced_block (rc : RefCounts) :
    Except Err (RefCounts × Nat) :=
  match findFreeFrom rc.counters rc.search_cursor with
  | none => .error .noSpace
  | some j =>
      .ok ({ counters := rc.counters.set j .provisional,
             search_cursor := j + 1 }, j)

/-- The slab attributes read or written by the embedded allocator
functions. -/
structure VdoSlab where
  slab_number : Nat
  reference_counts : RefCounts
  journal_blank : Bool
  unrecovered : Bool
  resuming : Bool
  priority : Nat
  deriving DecidableEq

def get_slab_free_block_count (s : VdoSlab) : Nat :=
  s.reference_counts.free_blocks

/-- Modelled from the spec: the priority table (priority-table.c, not in
this tree) is a bucketed priority queue, an array of FIFO lists indexed
by priority; enqueue appends to a bucket, dequeue pops the head of the
highest non-empty bucket, remove deletes a queued entry. -/
structure PriorityTable where
  buckets : List (List Nat)
  deriving DecidableEq

def priority_table_enqueue (t : PriorityTable) (p n : Nat) : PriorityTable :=
  ⟨t.buckets.set p (t.buckets.getD p [] ++ [n])⟩

def priority_table_remove (t : PriorityTable) (n : Nat) : PriorityTable :=
  ⟨t.buckets.map (fun b => b.filter (fun m => m ≠ n))⟩

def dequeueAux : List (List Nat) → Option (Nat × List (List Nat))
  | [] => none
  | b :: rest =>
    match dequeueAux rest with
    | some (n, rest') => some (n, b :: rest')
    | none =>
      match b with
      | [] => none
      | n :: tail => some (n, tail :: rest)

def priority_table_dequeue (t : PriorityTable) :
    Option (Nat × PriorityTable) :=
  match dequeueAux t.buckets with
  | none => none
  | some (n, bs) => some (n, ⟨bs⟩)

def tableContains (t : PriorityTable) (n : Nat) : Bool :=
  t.buckets.any (fun b => b.contains n)

/-- The per-zone block allocator state touched by the embedded functions.
Slabs are stored in a dense list and referenced by index. -/
structure Allocator where
  slabs : List VdoSlab
  open_slab : Option Nat
  prioritized_slabs : PriorityTable
  unopened_slab_priority : Nat
  data_blocks : Nat
  allocated_blocks : Nat
  slabs_opened : Nat
  scrubber : List (Nat × Bool)
  read_only : Bool
  deriving DecidableEq

/-- The priority calculate_slab_priority computes for slab s of
allocator a. -/
def slabPriority (a : Allocator) (s : VdoSlab) : Nat :=
  calculate_slab_priority a.unopened_slab_priority s.journal_blank
    (get_slab_free_block_count s)

/-- Translation of prioritize_slab (block-allocator.c lines 114-122):
recompute the slab's priority and enqueue it into the priority table. -/
def prioritize_slab (a : Allocator) (i : Nat) : Allocator :=
  match a.slabs[i]? with
  | none => a
  | some s =>
    let pr := slabPriority a s
    { a with slabs := a.slabs.set i { s with priority := pr },
             prioritized_slabs :=
               priority_table_enqueue a.prioritized_slabs pr i }

/-- Translation of vdo_adjust_free_block_count (block-allocator.c lines
450-481).  allocated_blocks is a u64 adjusted with the sense of the
increment reversed; the open slab is never reprioritized, and a slab
whose priority is unchanged is not requeued. -/
def vdo_adjust_free_block_count (a : Allocator) (i : Nat)
    (increment : Bool) : Allocator :=
  let a := { a with allocated_blocks :=
      (a.allocated_blocks + (if increment then 2 ^ 64 - 1 else 1)) % 2 ^ 64 }
  if a.open_slab = some i then a
  else
    match a.slabs[i]? with
    | none => a
    | some s =>
      if s.priority = slabPriority a s then a
      else
        prioritize_slab
          { a with prioritized_slabs :=
              priority_table_remove a.prioritized_slabs i } i

/-- Translation of allocate_slab_block (block-allocator.c lines 496-510):
allocate the next free block of slab i; on success adjust the allocator's
free block accounting.  A missing slab (NULL in C) yields none. -/
def allocate_slab_block (a : Allocator) (i : Nat) :
    Option (Except Err (Allocator × Nat)) :=
  match a.slabs[i]? with
  | none => none
  | some s =>
    match vdo_allocate_unreferenced_block s.reference_counts with
    | .error e => some (.error e)
    | .ok (rc', pbn) =>
      let a := { a with slabs := a.slabs.set i { s with reference_counts := rc' } }
      some (.ok (vdo_adjust_free_block_count a i false, pbn))

/-- Modelled from the spec: vdo_open_slab (slab.c, not in this tree)
performs the open event of the slab state machine; none of the state
tracked here changes. -/
def vdo_open_slab (a : Allocator) (_i : Nat) : Allocator := a

/-- The second half of vdo_allocate_block (block-allocator.c lines
540-552): dequeue the highest-priority slab, make it the open slab, open
it, and try allocating from it.  An empty priority table makes the C
code dereference NULL, modelled as none. -/
def open_new_slab_and_allocate (a : Allocator) :
    Option (Allocator × Except Err Nat) :=
  match priority_table_dequeue a.prioritized_slabs with
  | none => none
  | some (j, t') =>
    let a := vdo_open_slab
      { a with prioritized_slabs := t', open_slab := some j } j
    match allocate_slab_block a j with
    | none => none
    | some (.ok (a', pbn)) => some (a', .ok pbn)
    | some (.error e) => some (a, .error e)

/-- Translation of vdo_allocate_block (block-allocator.c lines 525-553). -/
def vdo_allocate_block (a : Allocator) :
    Option (Allocator × Except Err Nat) :=
  match a.open_slab with
  | some i =>
    match allocate_slab_block a i with
    | none => none
    | some (.ok (a', pbn)) => some (a', .ok pbn)
    | some (.error e) =>
      if e ≠ Err.noSpace then some (a, .error e)
      else open_new_slab_and_allocate (prioritize_slab a i)
  | none => open_new_slab_and_allocate a

/-- Modelled from the spec: vdo_enter_read_only_mode (read-only-notifier.c,
not in this tree) makes read-only mode sticky for the process lifetime;
here it sets the allocator's read_only flag. -/
def vdo_enter_read_only_mode (a : Allocator) : Allocator :=
  { a with read_only := true }

/-- Modelled from the spec: vdo_register_slab_for_scrubbing
(slab-scrubber.c, not in this tree) records the slab with the scrubber
together with its high-priority flag. -/
def vdo_register_slab_for_scrubbing (a : Allocator) (i : Nat)
    (high_priority : Bool) : Allocator :=
  { a with scrubber := a.scrubber ++ [(i, high_priority)] }

/-- Translation of vdo_queue_slab (block-allocator.c lines 398-439).  A
free count above the configured data blocks per slab fails the ASSERT and
sends the allocator into read-only mode; an unrecovered slab goes to the
scrubber; otherwise the slab is accounted (unless resuming) and
prioritized into the table. -/
def vdo_queue_slab (a : Allocator) (i : Nat) : Option Allocator :=
  match a.slabs[i]? with
  | none => none
  | some s =>
    let free_blocks := get_slab_free_block_count s
    if ¬ (free_blocks ≤ a.data_blocks) then
      some (vdo_enter_read_only_mode a)
    else if s.unrecovered then
      some (vdo_register_slab_for_scrubbing a i false)
    else
      let a1 :=
        if ¬ s.resuming then
          { a with
            allocated_blocks :=
              (a.allocated_blocks + 2 ^ 64 - free_blocks % 2 ^ 64) % 2 ^ 64,
            slabs_opened :=
              if ¬ s.journal_blank then a.slabs_opened + 1
              else a.slabs_opened }
        else a
      some (prioritize_slab a1 i)

/-- The journal operation types of reference_operation (a subset). -/
inductive JournalOperation where
  | dataIncrement
  | dataDecrement
  deriving DecidableEq

/-- A reference_operation as built by vdo_release_block_reference, plus
the index of the slab it is applied to. -/
structure ReferenceOperation where
  optype : JournalOperation
  pbn : Nat
  deriving DecidableEq

/-- The slab-depot attributes needed to route a PBN to its slab. -/
structure Depot where
  first_block : Nat
  slab_size_shift : Nat
  slabs : List VdoSlab
  deriving DecidableEq

/-- Modelled from the spec: get_vdo_slab (slab-depot.c, not in this tree)
returns the index of the slab containing pbn, computed as
(pbn - first_block) >> slab_size_shift; the zero block and out-of-range
PBNs yield none (NULL in C). -/
def vdo_get_slab (d : Depot) (pbn : Nat) : Option Nat :=
  if pbn = 0 then none
  else
    let idx := (pbn - d.first_block) >>> d.slab_size_shift
    if idx < d.slabs.length then some idx else none

/-- Modelled from the spec: the DATA_DECREMENT case of
vdo_modify_slab_reference_count (slab.c / ref-counts.c, not in this
tree): a provisional counter is vacated to free, a positive counter is
decremented, and decrementing a zero counter is a fatal inconsistency
(INVALID_STATE). -/
def decrement_refcount : RefCount → Except Err RefCount
  | .provisional => .ok (.value 0)
  | .value 0 => .error .invalidState
  | .value (n + 1) => .ok (.value n)

def vdo_modify_slab_reference_count (s : VdoSlab) (offset : Nat) :
    Except Err VdoSlab :=
  match s.reference_counts.counters[offset]? with
  | none => .error .invalidState
  | some c =>
    match decrement_refcount c with
    | .error e => .error e
    | .ok c' =>
      .ok { s with reference_counts :=
              { s.reference_counts with
                counters := s.reference_counts.counters.set offset c' } }

/-- Translation of vdo_release_block_reference (block-allocator.c lines
562-585): the zero PBN returns immediately; otherwise a DATA_DECREMENT
reference operation is issued on the slab containing pbn (an error from
the modification is only logged).  The second component records the
reference operations issued. -/
def vdo_release_block_reference (d : Depot) (pbn : Nat) :
    Option (Depot × List ReferenceOperation) :=
  if pbn = 0 then some (d, [])
  else
    let op : ReferenceOperation := ⟨.dataDecrement, pbn⟩
    match vdo_get_slab d pbn with
    | none => none
    | some i =>
      match d.slabs[i]? with
      | none => none
      | some s =>
        let offset := pbn - d.first_block - i * 2 ^ d.slab_size_shift
        match vdo_modify_slab_reference_count s offset with
        | .error _ => some (d, [op])
        | .ok s' => some ({ d with slabs := d.slabs.set i s' }, [op])

/-- A fully allocated one-block slab. -/
def exampleFullSlab : VdoSlab :=
  { slab_number := 0,
    reference_counts := { counters := [.value 1], search_cursor := 0 },
    journal_blank := false, unrecovered := false, resuming := false,
    priority := 1 }

/-- A one-block slab with its block free. -/
def exampleFreeSlab : VdoSlab :=
  { slab_number := 1,
    reference_counts := { counters := [.value 0], search_cursor := 0 },
    journal_blank := false, unrecovered := false, resuming := false,
    priority := 1 }

/-- An allocator whose open slab is exhausted while slab 1 waits in the
priority table. -/
def exampleAllocator : Allocator :=
  { slabs := [exampleFullSlab, exampleFreeSlab],
    open_slab := some 0,
    prioritized_slabs := ⟨[[], [1]]⟩,
    unopened_slab_priority := 5,
    data_blocks := 1, allocated_blocks := 1, slabs_opened := 2,
    scrubber := [], read_only := false }

/-- An allocator holding a slab whose free count 2 exceeds the
configured single data block per slab. -/
def exampleOverfullAllocator : Allocator :=
  { slabs := [{ slab_number := 0,
                reference_counts :=
                  { counters := [.value 0, .value 0], search_cursor := 0 },
                journal_blank := false, unrecovered := false,
                resuming := false, priority := 1 }],
    open_slab := none,
    prioritized_slabs := ⟨[[], []]⟩,
    unopened_slab_priority := 5,
    data_blocks := 1, allocated_blocks := 0, slabs_opened := 0,
    scrubber := [], read_only := false }

/-- A depot with one slab whose single counter is zero. -/
def exampleDepot : Depot :=
  { first_block := 1, slab_size_shift := 0,
    slabs := [{ slab_number := 0,
                reference_counts := { counters := [.value 0], search_cursor := 0 },
                journal_blank := false, unrecovered := false,
                resuming := false, priority := 1 }] }

/-- The slab_status record summarized per slab by the slab summary. -/
structure SlabStatus where
  slab_number : Nat
  is_clean : Bool
  emptiness : Nat
  deriving DecidableEq

/-- Translation of compare_slab_statuses (block-allocator.c lines
605-617): is_clean is the primary key, emptiness the secondary key, and
the tie is broken by returning 1 exactly when the first slab number is
the smaller one; 0 is never returned. -/
def compare_slab_statuses (info1 info2 : SlabStatus) : Int :=
  if info1.is_clean ≠ info2.is_clean then (if info1.is_clean then 1 else -1)
  else if info1.emptiness ≠ info2.emptiness then
    (if info1.emptiness > info2.emptiness then 1 else -1)
  else if info1.slab_number < info2.slab_number then 1 else -1

/-- The comparator as the claim words it: lexicographic with is_clean
descending, emptiness descending, and slab_number descending, so that
the larger slab number would compare greater on a tie. -/
def compare_slab_statuses_claimed (info1 info2 : SlabStatus) : Int :=
  if info1.is_clean ≠ info2.is_clean then (if info1.is_clean then 1 else -1)
  else if info1.emptiness ≠ info2.emptiness then
    (if info1.emptiness > info2.emptiness then 1 else -1)
  else if info1.slab_number > info2.slab_number then 1 else -1

/-- Modelled from the spec: build_heap and pop_max_heap_element (heap.c,
not in this tree) deliver the elements in comparator-descending order;
the pop order is modelled as sorting with the comparator, greater
elements first. -/
def heapPopOrder (statuses : List SlabStatus) : List SlabStatus :=
  List.insertionSort (fun s1 s2 => 0 ≤ compare_slab_statuses s1 s2) statuses

/-- The depot load types (slab-depot.h lines 44-48). -/
inductive SlabDepotLoadType where
  | normal
  | recovery
  | rebuild
  deriving DecidableEq, BEq

/-- What vdo_prepare_slabs_for_allocation does with one popped slab. -/
inductive SlabDisposition where
  | queued
  | scrubbed (high_priority : Bool)
  deriving DecidableEq

/-- Translation of the loop body of vdo_prepare_slabs_for_allocation
(block-allocator.c lines 848-862): REBUILD loads, and clean slabs whose
ref-counts need not be loaded, are queued directly; every other slab is
marked unrecovered and registered with the scrubber, at high priority
when it is clean during a NORMAL load or its journal requires
scrubbing. -/
def prepare_slab_disposition (load_type : SlabDepotLoadType)
    (must_load_ref_counts is_clean requires_scrubbing : Bool) :
    SlabDisposition :=
  if load_type = .rebuild ∨ (must_load_ref_counts = false ∧ is_clean = true)
  then .queued
  else .scrubbed ((is_clean && (load_type == SlabDepotLoadType.normal)) ||
                  requires_scrubbing)

/-- Translation of vdo_prepare_slabs_for_allocation (block-allocator.c
lines 809-867): pop every summarized slab status in heap order, skip
slabs of other allocators, and dispose of each per
prepare_slab_disposition.  The summary predicate must_load_ref_counts
and the journal predicate requires_scrubbing are supplied per slab
number. -/
def vdo_prepare_slabs_for_allocation (load_type : SlabDepotLoadType)
    (belongs must_load_ref_counts requires_scrubbing : Nat → Bool)
    (statuses : List SlabStatus) : List (Nat × SlabDisposition) :=
  (heapPopOrder statuses).filterMap (fun st =>
    if belongs st.slab_number then
      some (st.slab_number,
        prepare_slab_disposition load_type
          (must_load_ref_counts st.slab_number) st.is_clean
          (requires_scrubbing st.slab_number))
    else none)

end BlockAlloc

namespace AVio

/-- The allocating_vio fields driving zone retry (allocating-vio.h). -/
structure AllocatingVio where
  zone : Nat
  allocation_attempts : Nat
  wait_for_clean_slab : Bool
  deriving DecidableEq

/-- The observable end of one allocation process: the allocation callback
fired with a result, or the vio parked on a scrubber as a clean-slab
waiter. -/
inductive VioOutcome where
  | fired (result : Err)
  | waiting
  deriving DecidableEq

/-- Outcome of one allocate_block_in_zone invocation: move to the next
zone with the given vio state, or stop with an outcome. -/
inductive StepResult where
  | tryNext (v : AllocatingVio)
  | done (o : VioOutcome)
  deriving DecidableEq

/-- Translation of finish_allocation (allocating-vio.c lines 83-99): a
NO_SPACE allocation result is converted to VDO_SUCCESS before the
allocation callback is invoked, so that the write path can still try to
deduplicate. -/
def finish_allocation (result : Err) : Err :=
  if result = Err.noSpace then Err.success else result

/-- Translation of has_zones_to_try (allocating-vio.c lines 129-136). -/
def has_zones_to_try (zone_count : Nat) (v : AllocatingVio) : Prop :=
  v.allocation_attempts < zone_count

instance (zone_count : Nat) (v : AllocatingVio) :
    Decidable (has_zones_to_try zone_count v) :=
  Nat.decLt _ _

/-- Translation of should_try_next_zone (allocating-vio.c lines 147-183).
The per-zone scrubber enqueue result is supplied by enq. -/
def should_try_next_zone (zone_count : Nat) (enq : Nat → Err)
    (v : AllocatingVio) : StepResult :=
  if v.wait_for_clean_slab = false ∧ has_zones_to_try zone_count v then
    .tryNext v
  else
    let v1 := if v.wait_for_clean_slab = false then
        { v with wait_for_clean_slab := true, allocation_attempts := 1 }
      else v
    let result := enq v1.zone
    if result = Err.success then .done .waiting
    else if result ≠ Err.noSpace ∨ ¬ has_zones_to_try zone_count v1 then
      .done (.fired (finish_allocation result))
    else .tryNext v1

/-- Translation of try_next_zone (allocating-vio.c lines 190-207): when
allowed to proceed, advance to the next physical zone, wrapping to zone
0 after the last one. -/
def try_next_zone (zone_count : Nat) (enq : Nat → Err)
    (v : AllocatingVio) : StepResult :=
  match should_try_next_zone zone_count enq v with
  | .done o => .done o
  | .tryNext v' =>
    let zone_number := v'.zone + 1
    let zone_number := if zone_number = zone_count then 0 else zone_number
    .tryNext { v' with zone := zone_number }

/-- Translation of allocate_block_in_zone (allocating-vio.c lines
215-236).  The per-zone allocator result is supplied by alloc and the
PBN write lock result by lock. -/
def allocate_block_in_zone (zone_count : Nat)
    (alloc : Nat → Except Err Nat) (lock enq : Nat → Err)
    (v : AllocatingVio) : StepResult :=
  let v := { v with allocation_attempts := v.allocation_attempts + 1 }
  match alloc v.zone with
  | .error e =>
    if e = Err.noSpace then try_next_zone zone_count enq v
    else .done (.fired (finish_allocation e))
  | .ok pbn => .done (.fired (finish_allocation (lock pbn)))

/-- Iterate allocate_block_in_zone across zones; the fuel bounds the
number of zone hops (none marks exhausted fuel, which no theorem relies
on). -/
def run_allocation (zone_count : Nat) (alloc : Nat → Except Err Nat)
    (lock enq : Nat → Err) : Nat → AllocatingVio → Option VioOutcome
  | 0, _ => none
  | fuel + 1, v =>
    match allocate_block_in_zone zone_count alloc lock enq v with
    | .done o => some o
    | .tryNext v' => run_allocation zone_count alloc lock enq fuel v'

/-- The initial vio state set up by vio_allocate_data_block
(allocating-vio.c lines 239-256). -/
def initial_vio (zone : Nat) : AllocatingVio :=
  { zone := zone, allocation_attempts := 0, wait_for_clean_slab := false }

end AVio

namespace UdsConfig

/-- The magic bytes ALBIC (config.c line 30). -/
def INDEX_CONFIG_MAGIC : List Nat := [65, 76, 66, 73, 67]

/-- The version string bytes of 06.02 (config.c line 31). -/
def INDEX_CONFIG_VERSION_6_02 : List Nat := [48, 54, 46, 48, 50]

/-- The version string bytes of 08.02 (config.c line 32). -/
def INDEX_CONFIG_VERSION_8_02 : List Nat := [48, 56, 46, 48, 50]

/-- The index geometry fields touched by the configuration codec. -/
structure Geometry where
  record_pages_per_chapter : Nat
  chapters_per_volume : Nat
  sparse_chapters_per_volume : Nat
  bytes_per_page : Nat
  remapped_virtual : Nat
  remapped_physical : Nat
  deriving DecidableEq

/-- The in-memory configuration (config.h) as used by the codec. -/
structure Configuration where
  geometry : Geometry
  cache_chapters : Nat
  volume_index_mean_delta : Nat
  sparse_sample_rate : Nat
  nonce : Nat
  deriving DecidableEq

/-- The saved on-disk configuration record, 08.02 layout (uds.h). -/
structure UdsConfiguration802 where
  record_pages_per_chapter : Nat
  chapters_per_volume : Nat
  sparse_chapters_per_volume : Nat
  cache_chapters : Nat
  volume_index_mean_delta : Nat
  bytes_per_page : Nat
  sparse_sample_rate : Nat
  nonce : Nat
  remapped_virtual : Nat
  remapped_physical : Nat
  deriving DecidableEq

/-- The payload format a saved configuration was parsed from. -/
inductive ConfigVersion where
  | v6_02
  | v8_02
  deriving DecidableEq

/-- put_uint32_le_into_buffer (buffer.c, not in this tree): little-endian
bytes of the value truncated to 32 bits. -/
def putU32le (n : Nat) : List Nat :=
  [n % 256, n / 2 ^ 8 % 256, n / 2 ^ 16 % 256, n / 2 ^ 24 % 256]

/-- put_uint64_le_into_buffer: little-endian bytes of the value truncated
to 64 bits. -/
def putU64le (n : Nat) : List Nat :=
  [n % 256, n / 2 ^ 8 % 256, n / 2 ^ 16 % 256, n / 2 ^ 24 % 256,
   n / 2 ^ 32 % 256, n / 2 ^ 40 % 256, n / 2 ^ 48 % 256, n / 2 ^ 56 % 256]

/-- get_uint32_le_from_buffer: consume four little-endian bytes. -/
def getU32le : List Nat → Except Err (Nat × List Nat)
  | b0 :: b1 :: b2 :: b3 :: rest =>
    .ok (b0 + 2 ^ 8 * b1 + 2 ^ 16 * b2 + 2 ^ 24 * b3, rest)
  | _ => .error Err.bufferError

/-- get_uint64_le_from_buffer: consume eight little-endian bytes. -/
def getU64le : List Nat → Except Err (Nat × List Nat)
  | b0 :: b1 :: b2 :: b3 :: b4 :: b5 :: b6 :: b7 :: rest =>
    .ok (b0 + 2 ^ 8 * b1 + 2 ^ 16 * b2 + 2 ^ 24 * b3 + 2 ^ 32 * b4 +
         2 ^ 40 * b5 + 2 ^ 48 * b6 + 2 ^ 56 * b7, rest)
  | _ => .error Err.bufferError

/-- skip_forward: advance past n bytes. -/
def skipForward : Nat → List Nat → Except Err (List Nat)
  | 0, b => .ok b
  | _ + 1, [] => .error Err.bufferError
  | n + 1, _ :: b => skipForward n b

/-- Translation of decode_index_config_06_02 (config.c lines 42-99):
eight u32 fields with one reserved skipped word, a u64 nonce, zeroed
remap fields, and a corrupt-component failure when bytes remain. -/
def decode_index_config_06_02 (buffer : List Nat) :
    Except Err UdsConfiguration802 := do
  let (record_pages_per_chapter, buffer) ← getU32le buffer
  let (chapters_per_volume, buffer) ← getU32le buffer
  let (sparse_chapters_per_volume, buffer) ← getU32le buffer
  let (cache_chapters, buffer) ← getU32le buffer
  let buffer ← skipForward 4 buffer
  let (volume_index_mean_delta, buffer) ← getU32le buffer
  let (bytes_per_page, buffer) ← getU32le buffer
  let (sparse_sample_rate, buffer) ← getU32le buffer
  let (nonce, buffer) ← getU64le buffer
  if buffer = [] then
    .ok { record_pages_per_chapter, chapters_per_volume,
          sparse_chapters_per_volume, cache_chapters,
          volume_index_mean_delta, bytes_per_page, sparse_sample_rate,
          nonce, remapped_virtual := 0, remapped_physical := 0 }
  else .error Err.corruptComponent

/-- Translation of decode_index_config_08_02 (config.c lines 102-165):
as 06.02 but with the two u64 remap fields decoded from the buffer. -/
def decode_index_config_08_02 (buffer : List Nat) :
    Except Err UdsConfiguration802 := do
  let (record_pages_per_chapter, buffer) ← getU32le buffer
  let (chapters_per_volume, buffer) ← getU32le buffer
  let (sparse_chapters_per_volume, buffer) ← getU32le buffer
  let (cache_chapters, buffer) ← getU32le buffer
  let buffer ← skipForward 4 buffer
  let (volume_index_mean_delta, buffer) ← getU32le buffer
  let (bytes_per_page, buffer) ← getU32le buffer
  let (sparse_sample_rate, buffer) ← getU32le buffer
  let (nonce, buffer) ← getU64le buffer
  let (remapped_virtual, buffer) ← getU64le buffer
  let (remapped_physical, buffer) ← getU64le buffer
  if buffer = [] then
    .ok { record_pages_per_chapter, chapters_per_volume,
          sparse_chapters_per_volume, cache_chapters,
          volume_index_mean_delta, bytes_per_page, sparse_sample_rate,
          nonce, remapped_virtual, remapped_physical }
  else .error Err.corruptComponent

/-- Translation of encode_index_config_06_02 (config.c lines 318-368). -/
def encode_index_config_06_02 (config : Configuration) : List Nat :=
  putU32le config.geometry.record_pages_per_chapter ++
  (putU32le config.geometry.chapters_per_volume ++
  (putU32le config.geometry.sparse_chapters_per_volume ++
  (putU32le config.cache_chapters ++
  (putU32le 0 ++
  (putU32le config.volume_index_mean_delta ++
  (putU32le config.geometry.bytes_per_page ++
  (putU32le config.sparse_sample_rate ++
  putU64le config.nonce)))))))

/-- Translation of encode_index_config_08_02 (config.c lines 371-431). -/
def encode_index_config_08_02 (config : Configuration) : List Nat :=
  putU32le config.geometry.record_pages_per_chapter ++
  (putU32le config.geometry.chapters_per_volume ++
  (putU32le config.geometry.sparse_chapters_per_volume ++
  (putU32le config.cache_chapters ++
  (putU32le 0 ++
  (putU32le config.volume_index_mean_delta ++
  (putU32le config.geometry.bytes_per_page ++
  (putU32le config.sparse_sample_rate ++
  (putU64le config.nonce ++
  (putU64le config.geometry.remapped_virtual ++
  putU64le config.geometry.remapped_physical)))))))))

/-- read_from_buffered_reader (buffered-reader.c, not in this tree):
read exactly n bytes, failing when fewer are available. -/
def read_from_buffered_reader (n : Nat) (stream : List Nat) :
    Except Err (List Nat × List Nat) :=
  match n, stream with
  | 0, s => .ok ([], s)
  | _ + 1, [] => .error Err.bufferError
  | n + 1, b :: s =>
    match read_from_buffered_reader n s with
    | .error e => .error e
    | .ok (bs, rest) => .ok (b :: bs, rest)

/-- verify_buffered_data (buffered-reader.c, not in this tree): read and
compare against the expected bytes, failing on any difference. -/
def verify_buffered_data (expected stream : List Nat) :
    Except Err (List Nat) :=
  match expected, stream with
  | [], s => .ok s
  | _ :: _, [] => .error Err.corruptFile
  | e :: es, b :: s =>
    if b = e then verify_buffered_data es s else .error Err.corruptFile

/-- Translation of read_version (config.c lines 168-228): dispatch on the
five version bytes, reading and decoding the 40-byte 06.02 payload or
the 56-byte 08.02 payload, with CORRUPT_COMPONENT for any other
version. -/
def read_version (stream : List Nat) :
    Except Err (ConfigVersion × UdsConfiguration802) := do
  let (version_buffer, stream) ← read_from_buffered_reader 5 stream
  if version_buffer = INDEX_CONFIG_VERSION_6_02 then do
    let (payload, _) ← read_from_buffered_reader 40 stream
    let conf ← decode_index_config_06_02 payload
    return (.v6_02, conf)
  else if version_buffer = INDEX_CONFIG_VERSION_8_02 then do
    let (payload, _) ← read_from_buffered_reader 56 stream
    let conf ← decode_index_config_08_02 payload
    return (.v8_02, conf)
  else .error Err.corruptComponent

/-- The magic check plus read_version, as performed at the start of
validate_config_contents (config.c lines 291-305). -/
def read_config_contents (stream : List Nat) :
    Except Err (ConfigVersion × UdsConfiguration802) := do
  let stream ← verify_buffered_data INDEX_CONFIG_MAGIC stream
  read_version stream

/-- Translation of are_matching_configurations (config.c lines 231-288):
all eight saved fields must equal the supplied configuration's. -/
def are_matching_configurations (saved : UdsConfiguration802)
    (user : Configuration) : Bool :=
  (saved.record_pages_per_chapter == user.geometry.record_pages_per_chapter) &&
  (saved.chapters_per_volume == user.geometry.chapters_per_volume) &&
  (saved.sparse_chapters_per_volume == user.geometry.sparse_chapters_per_volume) &&
  (saved.cache_chapters == user.cache_chapters) &&
  (saved.volume_index_mean_delta == user.volume_index_mean_delta) &&
  (saved.bytes_per_page == user.geometry.bytes_per_page) &&
  (saved.sparse_sample_rate == user.sparse_sample_rate) &&
  (saved.nonce == user.nonce)

/-- Translation of validate_config_contents (config.c lines 291-315):
verify the magic, read the saved configuration, fail with NO_INDEX on
any field mismatch, and otherwise install the saved remap fields into
the caller's geometry. -/
def validate_config_contents (stream : List Nat)
    (config : Configuration) : Except Err Configuration := do
  let (_, saved) ← read_config_contents stream
  if ¬ are_matching_configurations saved config then .error Err.noIndex
  else
    .ok { config with geometry :=
          { config.geometry with
            remapped_virtual := saved.remapped_virtual,
            remapped_physical := saved.remapped_physical } }

/-- Translation of write_config_contents (config.c lines 434-488): the
magic, then the 06.02 version and payload when the caller's version is
below 4, else the 08.02 version and payload. -/
def write_config_contents (config : Configuration) (version : Nat) :
    List Nat :=
  INDEX_CONFIG_MAGIC ++
  (if version < 4 then
    INDEX_CONFIG_VERSION_6_02 ++ encode_index_config_06_02 config
  else
    INDEX_CONFIG_VERSION_8_02 ++ encode_index_config_08_02 config)

/-- The saved record corresponding to a configuration, with every field
reduced to its on-disk width. -/
def saved_of_configuration (c : Configuration) : UdsConfiguration802 :=
  { record_pages_per_chapter := c.geometry.record_pages_per_chapter % 2 ^ 32,
    chapters_per_volume := c.geometry.chapters_per_volume % 2 ^ 32,
    sparse_chapters_per_volume :=
      c.geometry.sparse_chapters_per_volume % 2 ^ 32,
    cache_chapters := c.cache_chapters % 2 ^ 32,
    volume_index_mean_delta := c.volume_index_mean_delta % 2 ^ 32,
    bytes_per_page := c.geometry.bytes_per_page % 2 ^ 32,
    sparse_sample_rate := c.sparse_sample_rate % 2 ^ 32,
    nonce := c.nonce % 2 ^ 64,
    remapped_virtual := c.geometry.remapped_virtual % 2 ^ 64,
    remapped_physical := c.geometry.remapped_physical % 2 ^ 64 }

/-- All configuration fields fit their on-disk widths (u32 fields below
2^32, u64 fields below 2^64). -/
def fields_in_range (c : Configuration) : Prop :=
  c.geometry.record_pages_per_chapter < 2 ^ 32 ∧
  c.geometry.chapters_per_volume < 2 ^ 32 ∧
  c.geometry.sparse_chapters_per_volume < 2 ^ 32 ∧
  c.cache_chapters < 2 ^ 32 ∧
  c.volume_index_mean_delta < 2 ^ 32 ∧
  c.geometry.bytes_per_page < 2 ^ 32 ∧
  c.sparse_sample_rate < 2 ^ 32 ∧
  c.nonce < 2 ^ 64 ∧
  c.geometry.remapped_virtual < 2 ^ 64 ∧
  c.geometry.remapped_physical < 2 ^ 64

instance (c : Configuration) : Decidable (fields_in_range c) := by
  unfold fields_in_range
  exact inferInstance

end UdsConfig

namespace BlockAlloc

theorem log2fuel_eq (fuel n : Nat) (h : n ≤ fuel) :
    log2fuel fuel n = Nat.log2 n := by
  induction fuel generalizing n with
  | zero =>
    have : n = 0 := Nat.le_zero.mp h
    subst this
    simp [log2fuel, Nat.log2]
  | succ f ih =>
    rw [Nat.log2]
    simp only [log2fuel]
    by_cases h2 : n ≥ 2
    · rw [if_pos h2, if_pos h2, ih (n / 2) (by omega)]
      omega
    · rw [if_neg h2, if_neg h2]

theorem log_base_two_eq_log2 (n : Nat) : log_base_two n = Nat.log2 n :=
  log2fuel_eq n n (Nat.le_refl n)

theorem log_base_two_eq_log (n : Nat) : log_base_two n = Nat.log 2 n := by
  rw [log_base_two_eq_log2, Nat.log2_eq_log_two]

/-- Monotonicity of the floor base-two logarithm. -/
theorem log_base_two_mono {m n : Nat} (h : m ≤ n) :
    log_base_two m ≤ log_base_two n := by
  rw [log_base_two_eq_log, log_base_two_eq_log]
  exact Nat.log_mono_right h

theorem calculate_slab_priority_pos_nonblank (U F : Nat) (hF : F ≠ 0) :
    calculate_slab_priority U false F =
      if 1 + log_base_two F < U then 1 + log_base_two F
      else 1 + log_base_two F + 1 := by
  simp [calculate_slab_priority, hF]

end BlockAlloc

/-- Claim C2: the computed queue priority is 0 when the free block count F
is 0; the allocator's unopened_slab_priority U when the slab journal is
blank; otherwise p = 1 + floor(log2 F), with final priority p when p < U
and p + 1 when p >= U.  The spec side writes floor(log2 F) as Nat.log 2 F. -/
theorem calculate_slab_priority_spec (F U : Nat) (journal_blank : Bool) :
    BlockAlloc.calculate_slab_priority U journal_blank F =
      if F = 0 then 0
      else if journal_blank then U
      else if 1 + Nat.log 2 F < U then 1 + Nat.log 2 F
      else (1 + Nat.log 2 F) + 1 := by
  cases journal_blank <;>
    by_cases hF : F = 0 <;>
      simp [BlockAlloc.calculate_slab_priority, hF,
        BlockAlloc.log_base_two_eq_log]

/-- Claim C3: with U fixed at allocator construction to
1 + floor(log2(data_blocks * 3 / 4)) and max_priority =
2 + floor(log2 data_blocks), every slab with 0 < F <= data_blocks and a
non-blank journal gets a priority in [1, max_priority] that never equals
U, and the priority is a strictly monotone function of floor(log2 F). -/
theorem slab_priority_policy (D F : Nat) (hF : 0 < F) (hFD : F ≤ D) :
    1 ≤ BlockAlloc.calculate_slab_priority
          (BlockAlloc.unopened_slab_priority_of D) false F ∧
    BlockAlloc.calculate_slab_priority
          (BlockAlloc.unopened_slab_priority_of D) false F ≤
        BlockAlloc.max_priority_of D ∧
    BlockAlloc.calculate_slab_priority
          (BlockAlloc.unopened_slab_priority_of D) false F ≠
        BlockAlloc.unopened_slab_priority_of D ∧
    (∀ F1 F2, 0 < F1 → 0 < F2 →
        BlockAlloc.log_base_two F1 < BlockAlloc.log_base_two F2 →
        BlockAlloc.calculate_slab_priority
            (BlockAlloc.unopened_slab_priority_of D) false F1 <
          BlockAlloc.calculate_slab_priority
            (BlockAlloc.unopened_slab_priority_of D) false F2) ∧
    (∀ F1 F2, 0 < F1 → 0 < F2 →
        BlockAlloc.log_base_two F1 = BlockAlloc.log_base_two F2 →
        BlockAlloc.calculate_slab_priority
            (BlockAlloc.unopened_slab_priority_of D) false F1 =
          BlockAlloc.calculate_slab_priority
            (BlockAlloc.unopened_slab_priority_of D) false F2) := by
  have hlog : BlockAlloc.log_base_two F ≤ BlockAlloc.log_base_two D :=
    BlockAlloc.log_base_two_mono hFD
  refine ⟨?_, ?_, ?_, ?_, ?_⟩
  · rw [BlockAlloc.calculate_slab_priority_pos_nonblank _ _ (by omega)]
    split <;> omega
  · rw [BlockAlloc.calculate_slab_priority_pos_nonblank _ _ (by omega),
      BlockAlloc.max_priority_of]
    split <;> omega
  · rw [BlockAlloc.calculate_slab_priority_pos_nonblank _ _ (by omega)]
    split <;> omega
  · intro F1 F2 h1 h2 hlt
    rw [BlockAlloc.calculate_slab_priority_pos_nonblank _ _ (by omega),
      BlockAlloc.calculate_slab_priority_pos_nonblank _ _ (by omega)]
    split <;> split <;> omega
  · intro F1 F2 h1 h2 heq
    rw [BlockAlloc.calculate_slab_priority_pos_nonblank _ _ (by omega),
      BlockAlloc.calculate_slab_priority_pos_nonblank _ _ (by omega)]
    split <;> split <;> omega

/-- Witness for slab_priority_policy at D = 1024, F = 700: the bounds hold
and the priority at F = 700 is strictly below the one at F = 1024. -/
theorem slab_priority_policy_witness :
    1 ≤ BlockAlloc.calculate_slab_priority
          (BlockAlloc.unopened_slab_priority_of 1024) false 700 ∧
    BlockAlloc.calculate_slab_priority
          (BlockAlloc.unopened_slab_priority_of 1024) false 700 <
        BlockAlloc.calculate_slab_priority
          (BlockAlloc.unopened_slab_priority_of 1024) false 1024 := by
  have h := slab_priority_policy 1024 700 (by decide) (by decide)
  exact ⟨h.1, h.2.2.2.1 700 1024 (by decide) (by decide) (by decide)⟩

namespace BlockAlloc

theorem getD_nil_of_all_nil {l : List (List Nat)}
    (h : ∀ b ∈ l, b = []) (q : Nat) : l.getD q [] = [] := by
  cases hq : l[q]? with
  | none => simp [List.getD, hq]
  | some c => simp [List.getD, hq, h c (List.getElem?_mem hq)]

theorem dequeueAux_none {bs : List (List Nat)} (h : dequeueAux bs = none) :
    ∀ b ∈ bs, b = [] := by
  induction bs with
  | nil => intro b hb; cases hb
  | cons b rest ih =>
    intro c hc
    simp only [dequeueAux] at h
    cases hr : dequeueAux rest with
    | some p => rw [hr] at h; cases h
    | none =>
      rw [hr] at h
      cases hb : b with
      | nil =>
        cases hc with
        | head => exact hb
        | tail _ hm => exact ih hr c hm
      | cons n tail => rw [hb] at h; cases h

theorem dequeueAux_spec {bs : List (List Nat)} {n : Nat}
    {bs' : List (List Nat)} (h : dequeueAux bs = some (n, bs')) :
    ∃ p tail, bs[p]? = some (n :: tail) ∧
      (∀ q, p < q → bs.getD q [] = []) ∧ bs' = bs.set p tail := by
  induction bs generalizing n bs' with
  | nil => cases h
  | cons b rest ih =>
    simp only [dequeueAux] at h
    cases hr : dequeueAux rest with
    | some p =>
      obtain ⟨m, rest'⟩ := p
      rw [hr] at h
      obtain ⟨hm, hbs'⟩ : m = n ∧ b :: rest' = bs' := by
        constructor <;> cases h <;> rfl
      subst hm
      obtain ⟨p, tail, hget, hhigh, hset⟩ := ih hr
      refine ⟨p + 1, tail, by simpa using hget, ?_, ?_⟩
      · intro q hq
        cases q with
        | zero => omega
        | succ q' => simpa using hhigh q' (by omega)
      · rw [← hbs', hset]
        rfl
    | none =>
      rw [hr] at h
      cases hb : b with
      | nil => rw [hb] at h; cases h
      | cons m tail =>
        rw [hb] at h
        obtain ⟨hm, hbs'⟩ : m = n ∧ tail :: rest = bs' := by
          constructor <;> cases h <;> rfl
        subst hm
        refine ⟨0, tail, by simp, ?_, by rw [← hbs', List.set_cons_zero]⟩
        intro q hq
        cases q with
        | zero => omega
        | succ q' =>
          rw [List.getD_cons_succ]
          exact getD_nil_of_all_nil (dequeueAux_none hr) q'

/-- Dequeue pops the head of the highest non-empty bucket. -/
theorem priority_table_dequeue_spec {t : PriorityTable} {j : Nat}
    {t' : PriorityTable} (h : priority_table_dequeue t = some (j, t')) :
    ∃ p tail, t.buckets[p]? = some (j :: tail) ∧
      (∀ q, p < q → t.buckets.getD q [] = []) ∧
      t'.buckets = t.buckets.set p tail := by
  unfold priority_table_dequeue at h
  cases hd : dequeueAux t.buckets with
  | none => rw [hd] at h; cases h
  | some p =>
    obtain ⟨m, bs⟩ := p
    rw [hd] at h
    obtain ⟨hm, hbs⟩ : m = j ∧ (⟨bs⟩ : PriorityTable) = t' := by
      constructor <;> cases h <;> rfl
    subst hm
    obtain ⟨p, tail, hget, hhigh, hset⟩ := dequeueAux_spec hd
    exact ⟨p, tail, hget, hhigh, by rw [← hbs, hset]⟩

/-- The only error the block allocation path can produce is NO_SPACE. -/
theorem allocate_slab_block_error {a : Allocator} {i : Nat} {e : Err}
    (h : allocate_slab_block a i = some (.error e)) : e = .noSpace := by
  unfold allocate_slab_block vdo_allocate_unreferenced_block at h
  cases hs : a.slabs[i]? with
  | none => simp [hs] at h
  | some s =>
    simp only [hs] at h
    cases hf : findFreeFrom s.reference_counts.counters
        s.reference_counts.search_cursor with
    | none =>
      simp only [hf, Option.some.injEq, Except.error.injEq] at h
      exact h.symm
    | some j => simp [hf] at h

/-- Whatever open_new_slab_and_allocate returns carries either a PBN or
NO_SPACE, because block allocation within a slab can fail only for lack
of space. -/
theorem open_new_slab_and_allocate_result {a : Allocator}
    {r : Allocator × Except Err Nat}
    (h : open_new_slab_and_allocate a = some r) :
    (∃ pbn, r.2 = .ok pbn) ∨ r.2 = .error Err.noSpace := by
  unfold open_new_slab_and_allocate at h
  cases hd : priority_table_dequeue a.prioritized_slabs with
  | none => simp [hd] at h
  | some p =>
    obtain ⟨j, t'⟩ := p
    simp only [hd] at h
    cases hb : allocate_slab_block
        (vdo_open_slab { a with prioritized_slabs := t',
                                open_slab := some j } j) j with
    | none => simp [hb] at h
    | some res =>
      cases res with
      | ok q =>
        obtain ⟨a2, pbn⟩ := q
        simp only [hb, Option.some.injEq] at h
        exact Or.inl ⟨pbn, by rw [← h]⟩
      | error e =>
        simp only [hb, Option.some.injEq] at h
        exact Or.inr (by rw [← h, allocate_slab_block_error hb])

end BlockAlloc

/-- Claim C1: vdo_allocate_block first tries the open slab when one
exists; a success or a non-NO_SPACE error from that attempt is returned
immediately with no queue manipulation; exactly on NO_SPACE the
exhausted open slab is re-enqueued (at its recomputed priority), the
head of the highest non-empty priority bucket is dequeued as the new
open slab, and allocation is retried exactly once, the retry producing
either a PBN or NO_SPACE. -/
theorem vdo_allocate_block_policy (a : BlockAlloc.Allocator) (i : Nat)
    (hopen : a.open_slab = some i) :
    (∀ a' pbn, BlockAlloc.allocate_slab_block a i = some (.ok (a', pbn)) →
        BlockAlloc.vdo_allocate_block a = some (a', .ok pbn)) ∧
    (∀ e, BlockAlloc.allocate_slab_block a i = some (.error e) →
        e ≠ Err.noSpace →
        BlockAlloc.vdo_allocate_block a = some (a, .error e)) ∧
    (BlockAlloc.allocate_slab_block a i = some (.error Err.noSpace) →
        BlockAlloc.vdo_allocate_block a =
          BlockAlloc.open_new_slab_and_allocate
            (BlockAlloc.prioritize_slab a i)) ∧
    (∀ s, a.slabs[i]? = some s →
        (BlockAlloc.prioritize_slab a i).prioritized_slabs =
          BlockAlloc.priority_table_enqueue a.prioritized_slabs
            (BlockAlloc.slabPriority a s) i) ∧
    (∀ t j t', BlockAlloc.priority_table_dequeue t = some (j, t') →
        ∃ p tail, t.buckets[p]? = some (j :: tail) ∧
          (∀ q, p < q → t.buckets.getD q [] = []) ∧
          t'.buckets = t.buckets.set p tail) ∧
    (BlockAlloc.allocate_slab_block a i = some (.error Err.noSpace) →
        ∀ r, BlockAlloc.vdo_allocate_block a = some r →
          (∃ pbn, r.2 = .ok pbn) ∨ r.2 = .error Err.noSpace) := by
  refine ⟨?_, ?_, ?_, ?_, ?_, ?_⟩
  · intro a' pbn h
    simp [BlockAlloc.vdo_allocate_block, hopen, h]
  · intro e h hne
    simp [BlockAlloc.vdo_allocate_block, hopen, h, hne]
  · intro h
    simp [BlockAlloc.vdo_allocate_block, hopen, h]
  · intro s hs
    simp [BlockAlloc.prioritize_slab, hs]
  · intro t j t' h
    exact BlockAlloc.priority_table_dequeue_spec h
  · intro h r hr
    have h3 : BlockAlloc.vdo_allocate_block a =
        BlockAlloc.open_new_slab_and_allocate
          (BlockAlloc.prioritize_slab a i) := by
      simp [BlockAlloc.vdo_allocate_block, hopen, h]
    rw [h3] at hr
    exact BlockAlloc.open_new_slab_and_allocate_result hr

/-- Witness for vdo_allocate_block_policy on a concrete allocator whose
open slab is exhausted: the first attempt reports NO_SPACE and the
function proceeds by re-enqueueing the open slab and allocating from a
newly dequeued one. -/
theorem vdo_allocate_block_policy_witness :
    BlockAlloc.allocate_slab_block BlockAlloc.exampleAllocator 0 =
        some (.error Err.noSpace) ∧
    BlockAlloc.vdo_allocate_block BlockAlloc.exampleAllocator =
      BlockAlloc.open_new_slab_and_allocate
        (BlockAlloc.prioritize_slab BlockAlloc.exampleAllocator 0) :=
  ⟨rfl, (vdo_allocate_block_policy BlockAlloc.exampleAllocator 0 rfl).2.2.1 rfl⟩

/-- Claim C10: a slab presented to vdo_queue_slab with a free block count
above the configured data blocks per slab drives the allocator into
read-only mode and changes nothing else, so in particular it is queued
neither onto the priority table nor with the scrubber and the
allocated-blocks counter is untouched; every slab the function does
queue satisfies free_blocks <= data_blocks. -/
theorem vdo_queue_slab_guard (a : BlockAlloc.Allocator) (i : Nat)
    (s : BlockAlloc.VdoSlab) (hs : a.slabs[i]? = some s) :
    (a.data_blocks < BlockAlloc.get_slab_free_block_count s →
        BlockAlloc.vdo_queue_slab a i =
          some (BlockAlloc.vdo_enter_read_only_mode a)) ∧
    (∀ a', BlockAlloc.vdo_queue_slab a i = some a' →
        BlockAlloc.tableContains a'.prioritized_slabs i = true →
        BlockAlloc.tableContains a.prioritized_slabs i = false →
        BlockAlloc.get_slab_free_block_count s ≤ a.data_blocks) ∧
    (∀ a', BlockAlloc.vdo_queue_slab a i = some a' →
        a'.scrubber ≠ a.scrubber →
        BlockAlloc.get_slab_free_block_count s ≤ a.data_blocks) := by
  have hkey : ¬ BlockAlloc.get_slab_free_block_count s ≤ a.data_blocks →
      BlockAlloc.vdo_queue_slab a i =
        some (BlockAlloc.vdo_enter_read_only_mode a) := by
    intro hgt
    simp only [BlockAlloc.vdo_queue_slab, hs]
    rw [if_pos hgt]
  refine ⟨fun hlt => hkey (by omega), ?_, ?_⟩
  · intro a' h hmem hnomem
    by_cases hfree : BlockAlloc.get_slab_free_block_count s ≤ a.data_blocks
    · exact hfree
    · rw [hkey hfree] at h
      have ha' : a' = BlockAlloc.vdo_enter_read_only_mode a := by
        cases h; rfl
      rw [ha'] at hmem
      rw [show (BlockAlloc.vdo_enter_read_only_mode a).prioritized_slabs =
        a.prioritized_slabs from rfl] at hmem
      rw [hmem] at hnomem
      cases hnomem
  · intro a' h hsc
    by_cases hfree : BlockAlloc.get_slab_free_block_count s ≤ a.data_blocks
    · exact hfree
    · rw [hkey hfree] at h
      have ha' : a' = BlockAlloc.vdo_enter_read_only_mode a := by
        cases h; rfl
      exact absurd (by rw [ha']; rfl) hsc

/-- Witness for vdo_queue_slab_guard: a slab with two free blocks in a
one-data-block configuration is rejected into read-only mode. -/
theorem vdo_queue_slab_guard_witness :
    BlockAlloc.vdo_queue_slab BlockAlloc.exampleOverfullAllocator 0 =
      some (BlockAlloc.vdo_enter_read_only_mode
        BlockAlloc.exampleOverfullAllocator) :=
  (vdo_queue_slab_guard BlockAlloc.exampleOverfullAllocator 0 _ rfl).1
    (by decide)

/-- Claim C7: releasing a reference to the zero block returns immediately
with the depot unchanged and no reference operation issued; for any
non-zero PBN a DATA_DECREMENT reference operation is issued on the slab
containing the PBN, and no other slab changes. -/
theorem vdo_release_block_reference_spec (d : BlockAlloc.Depot) :
    (BlockAlloc.vdo_release_block_reference d 0 = some (d, [])) ∧
    (∀ pbn, pbn ≠ 0 →
      ∀ r, BlockAlloc.vdo_release_block_reference d pbn = some r →
        r.2 = [⟨BlockAlloc.JournalOperation.dataDecrement, pbn⟩] ∧
        ∃ i, BlockAlloc.vdo_get_slab d pbn = some i ∧
          ∀ j, j ≠ i → r.1.slabs[j]? = d.slabs[j]?) := by
  constructor
  · simp [BlockAlloc.vdo_release_block_reference]
  · intro pbn hne r h
    unfold BlockAlloc.vdo_release_block_reference at h
    rw [if_neg hne] at h
    cases hg : BlockAlloc.vdo_get_slab d pbn with
    | none => simp [hg] at h
    | some i =>
      simp only [hg] at h
      cases hs : d.slabs[i]? with
      | none => simp [hs] at h
      | some s =>
        simp only [hs] at h
        cases hm : BlockAlloc.vdo_modify_slab_reference_count s
            (pbn - d.first_block - i * 2 ^ d.slab_size_shift) with
        | error e =>
          simp only [hm, Option.some.injEq] at h
          refine ⟨by rw [← h], i, rfl, ?_⟩
          intro j _
          rw [← h]
        | ok s' =>
          simp only [hm, Option.some.injEq] at h
          refine ⟨by rw [← h], i, rfl, ?_⟩
          intro j hj
          rw [← h]
          exact List.getElem?_set_ne (fun he => hj he.symm)

/-- Witness for vdo_release_block_reference_spec on a concrete depot:
PBN 0 is a no-op, and releasing PBN 1 issues exactly one DATA_DECREMENT. -/
theorem vdo_release_block_reference_spec_witness :
    BlockAlloc.vdo_release_block_reference BlockAlloc.exampleDepot 0 =
        some (BlockAlloc.exampleDepot, []) ∧
    ((BlockAlloc.exampleDepot,
        [(⟨BlockAlloc.JournalOperation.dataDecrement, 1⟩ :
          BlockAlloc.ReferenceOperation)]).2 =
      [⟨BlockAlloc.JournalOperation.dataDecrement, 1⟩]) :=
  ⟨(vdo_release_block_reference_spec BlockAlloc.exampleDepot).1,
   ((vdo_release_block_reference_spec BlockAlloc.exampleDepot).2 1
      (by decide) _ rfl).1⟩

/-- Counterexample to claim C4 as stated: on a tie of is_clean and
emptiness the code comparator ranks the smaller slab number greater
(so slab numbers pop in ascending order), while the claimed
slab_number-descending comparator would rank it lesser. -/
theorem compare_slab_statuses_direction_counterexample :
    BlockAlloc.compare_slab_statuses ⟨0, true, 5⟩ ⟨1, true, 5⟩ = 1 ∧
    BlockAlloc.compare_slab_statuses_claimed ⟨0, true, 5⟩ ⟨1, true, 5⟩ = -1 ∧
    BlockAlloc.compare_slab_statuses ⟨0, true, 5⟩ ⟨1, true, 5⟩ ≠
      BlockAlloc.compare_slab_statuses_claimed ⟨0, true, 5⟩ ⟨1, true, 5⟩ := by
  refine ⟨by decide, by decide, by decide⟩

/-- Claim C4 (amended): the prepare-to-allocate pop order processes
exactly the summarized statuses, ordered by the lexicographic comparator
with is_clean descending, emptiness descending, and the smaller
slab_number ranking higher; the comparator never reports two statuses as
equal, resolves (is_clean, emptiness) ties by slab number, and orders any
two statuses with distinct slab numbers consistently, so the processing
order is deterministic. -/
theorem compare_slab_statuses_deterministic :
    (∀ statuses : List BlockAlloc.SlabStatus,
        (BlockAlloc.heapPopOrder statuses).Perm statuses) ∧
    (∀ s1 s2 : BlockAlloc.SlabStatus,
        BlockAlloc.compare_slab_statuses s1 s2 = 1 ∨
        BlockAlloc.compare_slab_statuses s1 s2 = -1) ∧
    (∀ s1 s2 : BlockAlloc.SlabStatus,
        s1.is_clean = s2.is_clean → s1.emptiness = s2.emptiness →
        (BlockAlloc.compare_slab_statuses s1 s2 = 1 ↔
          s1.slab_number < s2.slab_number)) ∧
    (∀ s1 s2 : BlockAlloc.SlabStatus, s1.slab_number ≠ s2.slab_number →
        (BlockAlloc.compare_slab_statuses s1 s2 = 1 ↔
          BlockAlloc.compare_slab_statuses s2 s1 = -1)) := by
  refine ⟨?_, ?_, ?_, ?_⟩
  · intro statuses
    exact List.perm_insertionSort _ statuses
  · intro ⟨n1, c1, e1⟩ ⟨n2, c2, e2⟩
    simp only [BlockAlloc.compare_slab_statuses]
    by_cases hc : c1 = c2 <;> by_cases he : e1 = e2 <;>
      cases c1 <;> cases c2 <;> simp_all <;> omega
  · intro ⟨n1, c1, e1⟩ ⟨n2, c2, e2⟩ hc he
    simp only at hc he
    simp only [BlockAlloc.compare_slab_statuses, hc, he]
    simp
  · intro ⟨n1, c1, e1⟩ ⟨n2, c2, e2⟩ hn
    simp only at hn
    simp only [BlockAlloc.compare_slab_statuses]
    by_cases hc : c1 = c2 <;> by_cases he : e1 = e2 <;>
      cases c1 <;> cases c2 <;> simp_all <;> omega

/-- Witness for compare_slab_statuses_deterministic: concrete tied
statuses are ordered by slab number and antisymmetrically. -/
theorem compare_slab_statuses_deterministic_witness :
    (BlockAlloc.compare_slab_statuses ⟨0, true, 5⟩ ⟨1, true, 5⟩ = 1 ↔
      (0 : Nat) < 1) ∧
    (BlockAlloc.compare_slab_statuses ⟨0, true, 5⟩ ⟨1, true, 5⟩ = 1 ↔
      BlockAlloc.compare_slab_statuses ⟨1, true, 5⟩ ⟨0, true, 5⟩ = -1) :=
  ⟨compare_slab_statuses_deterministic.2.2.1 ⟨0, true, 5⟩ ⟨1, true, 5⟩ rfl rfl,
   compare_slab_statuses_deterministic.2.2.2 ⟨0, true, 5⟩ ⟨1, true, 5⟩
     (by decide)⟩

/-- Claim C5: every slab popped during prepare-to-allocate that belongs to
the allocator is queued directly exactly when the depot load type is
REBUILD or the slab is clean and the summary says its ref-counts need not
load; otherwise it is marked unrecovered and registered with the scrubber
with high_priority = (is_clean and NORMAL load) or
journal-requires-scrubbing. -/
theorem prepare_slabs_disposition (load_type : BlockAlloc.SlabDepotLoadType)
    (belongs mlrc rs : Nat → Bool)
    (statuses : List BlockAlloc.SlabStatus) :
    (∀ st ∈ BlockAlloc.heapPopOrder statuses, belongs st.slab_number = true →
        (st.slab_number,
          BlockAlloc.prepare_slab_disposition load_type
            (mlrc st.slab_number) st.is_clean (rs st.slab_number)) ∈
          BlockAlloc.vdo_prepare_slabs_for_allocation load_type belongs
            mlrc rs statuses) ∧
    (∀ M ic rsb : Bool,
        (load_type = .rebuild ∨ (M = false ∧ ic = true)) →
        BlockAlloc.prepare_slab_disposition load_type M ic rsb = .queued) ∧
    (∀ M ic rsb : Bool,
        ¬ (load_type = .rebuild ∨ (M = false ∧ ic = true)) →
        BlockAlloc.prepare_slab_disposition load_type M ic rsb =
          .scrubbed ((ic && (load_type == BlockAlloc.SlabDepotLoadType.normal))
            || rsb)) := by
  refine ⟨?_, ?_, ?_⟩
  · intro st hmem hb
    unfold BlockAlloc.vdo_prepare_slabs_for_allocation
    refine List.mem_filterMap.mpr ⟨st, hmem, ?_⟩
    rw [hb]
    rfl
  · intro M ic rsb h
    unfold BlockAlloc.prepare_slab_disposition
    rw [if_pos h]
  · intro M ic rsb h
    unfold BlockAlloc.prepare_slab_disposition
    rw [if_neg h]

/-- Witness for prepare_slabs_disposition at a concrete NORMAL load: the
single clean status with loadable ref-counts is queued, and a status
whose ref-counts must load is registered at high priority. -/
theorem prepare_slabs_disposition_witness :
    ((0 : Nat), BlockAlloc.SlabDisposition.queued) ∈
      BlockAlloc.vdo_prepare_slabs_for_allocation .normal
        (fun _ => true) (fun _ => false) (fun _ => false)
        [⟨0, true, 3⟩] ∧
    BlockAlloc.prepare_slab_disposition .normal true true false =
      .scrubbed true := by
  have h := prepare_slabs_disposition .normal
    (fun _ => true) (fun _ => false) (fun _ => false) [⟨0, true, 3⟩]
  constructor
  · have hq := h.2.1 false true false (Or.inr ⟨rfl, rfl⟩)
    have := h.1 ⟨0, true, 3⟩ (by decide) rfl
    rwa [hq] at this
  · have := h.2.2 true true false (by simp)
    simpa using this

namespace AVio

/-- With zones left and no wait, a NO_SPACE zone result moves the vio to
the next zone, wrapping to zone 0 after the last. -/
theorem step_wrap (zc : Nat) (alloc : Nat → Except Err Nat)
    (lock enq : Nat → Err) (v : AllocatingVio)
    (hw : v.wait_for_clean_slab = false)
    (hz : v.allocation_attempts + 1 < zc)
    (ha : alloc v.zone = .error Err.noSpace) :
    allocate_block_in_zone zc alloc lock enq v =
      .tryNext { zone := if v.zone + 1 = zc then 0 else v.zone + 1,
                 allocation_attempts := v.allocation_attempts + 1,
                 wait_for_clean_slab := false } := by
  simp [allocate_block_in_zone, try_next_zone, should_try_next_zone,
    has_zones_to_try, ha, hw, hz]

/-- With no zones left and no wait, a NO_SPACE zone result followed by a
successful scrubber enqueue parks the vio as a clean-slab waiter. -/
theorem step_enqueue (zc : Nat) (alloc : Nat → Except Err Nat)
    (lock enq : Nat → Err) (v : AllocatingVio)
    (hw : v.wait_for_clean_slab = false)
    (hz : ¬ v.allocation_attempts + 1 < zc)
    (ha : alloc v.zone = .error Err.noSpace)
    (he : enq v.zone = Err.success) :
    allocate_block_in_zone zc alloc lock enq v = .done .waiting := by
  simp [allocate_block_in_zone, try_next_zone, should_try_next_zone,
    has_zones_to_try, ha, hw, hz, he]

/-- With no zones left, no wait, and a scrubber that reports NO_SPACE,
the vio enters wait mode and proceeds to the next zone when more than
one zone exists. -/
theorem step_enter_wait (zc : Nat) (alloc : Nat → Except Err Nat)
    (lock enq : Nat → Err) (v : AllocatingVio)
    (hw : v.wait_for_clean_slab = false)
    (hz : ¬ v.allocation_attempts + 1 < zc)
    (h1 : 1 < zc)
    (ha : alloc v.zone = .error Err.noSpace)
    (he : enq v.zone = Err.noSpace) :
    allocate_block_in_zone zc alloc lock enq v =
      .tryNext { zone := if v.zone + 1 = zc then 0 else v.zone + 1,
                 allocation_attempts := 1,
                 wait_for_clean_slab := true } := by
  simp [allocate_block_in_zone, try_next_zone, should_try_next_zone,
    has_zones_to_try, ha, hw, hz, he, h1]

/-- With at most one zone, no wait, no zones left, and a scrubber that
reports NO_SPACE, the callback fires with SUCCESS (NO_SPACE converted by
finish_allocation). -/
theorem step_fire (zc : Nat) (alloc : Nat → Except Err Nat)
    (lock enq : Nat → Err) (v : AllocatingVio)
    (hw : v.wait_for_clean_slab = false)
    (hz : ¬ v.allocation_attempts + 1 < zc)
    (h1 : ¬ 1 < zc)
    (ha : alloc v.zone = .error Err.noSpace)
    (he : enq v.zone = Err.noSpace) :
    allocate_block_in_zone zc alloc lock enq v =
      .done (.fired Err.success) := by
  simp [allocate_block_in_zone, try_next_zone, should_try_next_zone,
    has_zones_to_try, finish_allocation, ha, hw, hz, he, h1]

/-- In wait mode with zones left, a NO_SPACE zone result and a NO_SPACE
scrubber move the vio to the next zone. -/
theorem step_wait_continue (zc : Nat) (alloc : Nat → Except Err Nat)
    (lock enq : Nat → Err) (v : AllocatingVio)
    (hw : v.wait_for_clean_slab = true)
    (hz : v.allocation_attempts + 1 < zc)
    (ha : alloc v.zone = .error Err.noSpace)
    (he : enq v.zone = Err.noSpace) :
    allocate_block_in_zone zc alloc lock enq v =
      .tryNext { zone := if v.zone + 1 = zc then 0 else v.zone + 1,
                 allocation_attempts := v.allocation_attempts + 1,
                 wait_for_clean_slab := true } := by
  simp [allocate_block_in_zone, try_next_zone, should_try_next_zone,
    has_zones_to_try, ha, hw, hz, he]

/-- In wait mode with no zones left, a NO_SPACE zone result and a
NO_SPACE scrubber fire the callback with SUCCESS. -/
theorem step_wait_fire (zc : Nat) (alloc : Nat → Except Err Nat)
    (lock enq : Nat → Err) (v : AllocatingVio)
    (hw : v.wait_for_clean_slab = true)
    (hz : ¬ v.allocation_attempts + 1 < zc)
    (ha : alloc v.zone = .error Err.noSpace)
    (he : enq v.zone = Err.noSpace) :
    allocate_block_in_zone zc alloc lock enq v =
      .done (.fired Err.success) := by
  simp [allocate_block_in_zone, try_next_zone, should_try_next_zone,
    has_zones_to_try, finish_allocation, ha, hw, hz, he]

/-- Fuel monotonicity: a finished run stays finished with more fuel. -/
theorem run_allocation_mono (zc : Nat) (alloc : Nat → Except Err Nat)
    (lock enq : Nat → Err) :
    ∀ (fuel fuel' : Nat) (v : AllocatingVio) (o : VioOutcome),
      run_allocation zc alloc lock enq fuel v = some o → fuel ≤ fuel' →
      run_allocation zc alloc lock enq fuel' v = some o := by
  intro fuel
  induction fuel with
  | zero => intro fuel' v o h _; simp [run_allocation] at h
  | succ f ih =>
    intro fuel' v o h hle
    cases fuel' with
    | zero => omega
    | succ f' =>
      rw [run_allocation] at h ⊢
      cases hs : allocate_block_in_zone zc alloc lock enq v with
      | done o' => rw [hs] at h; exact h
      | tryNext v' => rw [hs] at h; exact ih f' v' o h (by omega)

/-- When every zone reports NO_SPACE and every scrubber enqueue succeeds,
the run ends parked on a scrubber after exhausting the remaining zones. -/
theorem run_enqueue_success (zc : Nat) (alloc : Nat → Except Err Nat)
    (lock enq : Nat → Err)
    (halloc : ∀ z, alloc z = .error Err.noSpace)
    (henq : ∀ z, enq z = Err.success) :
    ∀ (k : Nat) (v : AllocatingVio), v.wait_for_clean_slab = false →
      v.allocation_attempts + k = zc →
      run_allocation zc alloc lock enq (k + 1) v = some .waiting := by
  intro k
  induction k with
  | zero =>
    intro v hw hk
    rw [run_allocation,
      step_enqueue zc alloc lock enq v hw (by omega) (halloc _) (henq _)]
  | succ k ih =>
    intro v hw hk
    by_cases hlt : v.allocation_attempts + 1 < zc
    · rw [run_allocation,
        step_wrap zc alloc lock enq v hw hlt (halloc _)]
      exact ih _ rfl (by simp; omega)
    · rw [run_allocation,
        step_enqueue zc alloc lock enq v hw hlt (halloc _) (henq _)]

/-- In wait mode, when every zone reports NO_SPACE and every scrubber
reports NO_SPACE, the run fires the callback with SUCCESS after the
remaining zones. -/
theorem run_wait_phase (zc : Nat) (alloc : Nat → Except Err Nat)
    (lock enq : Nat → Err)
    (halloc : ∀ z, alloc z = .error Err.noSpace)
    (henq : ∀ z, enq z = Err.noSpace) :
    ∀ (k : Nat) (v : AllocatingVio), v.wait_for_clean_slab = true →
      v.allocation_attempts + k = zc →
      run_allocation zc alloc lock enq (k + 1) v =
        some (.fired Err.success) := by
  intro k
  induction k with
  | zero =>
    intro v hw hk
    rw [run_allocation,
      step_wait_fire zc alloc lock enq v hw (by omega) (halloc _) (henq _)]
  | succ k ih =>
    intro v hw hk
    by_cases hlt : v.allocation_attempts + 1 < zc
    · rw [run_allocation,
        step_wait_continue zc alloc lock enq v hw hlt (halloc _) (henq _)]
      exact ih _ rfl (by simp; omega)
    · rw [run_allocation,
        step_wait_fire zc alloc lock enq v hw hlt (halloc _) (henq _)]

/-- When every zone reports NO_SPACE and every scrubber reports NO_SPACE,
a run from the normal phase fires the callback with SUCCESS. -/
theorem run_enqueue_nospace (zc : Nat) (alloc : Nat → Except Err Nat)
    (lock enq : Nat → Err)
    (halloc : ∀ z, alloc z = .error Err.noSpace)
    (henq : ∀ z, enq z = Err.noSpace) :
    ∀ (k : Nat) (v : AllocatingVio), v.wait_for_clean_slab = false →
      v.allocation_attempts + k = zc →
      run_allocation zc alloc lock enq (k + zc + 1) v =
        some (.fired Err.success) := by
  intro k
  induction k with
  | zero =>
    intro v hw hk
    by_cases h1 : 1 < zc
    · rw [show (0 : Nat) + zc + 1 = (zc - 1) + 1 + 1 by omega, run_allocation,
        step_enter_wait zc alloc lock enq v hw (by omega) h1 (halloc _)
          (henq _)]
      exact run_wait_phase zc alloc lock enq halloc henq (zc - 1) _ rfl
        (by simp; omega)
    · rw [show (0 : Nat) + zc + 1 = zc + 1 by omega, run_allocation,
        step_fire zc alloc lock enq v hw (by omega) h1 (halloc _) (henq _)]
  | succ k ih =>
    intro v hw hk
    by_cases hlt : v.allocation_attempts + 1 < zc
    · rw [show (k + 1) + zc + 1 = (k + zc + 1) + 1 by omega, run_allocation,
        step_wrap zc alloc lock enq v hw hlt (halloc _)]
      exact ih _ rfl (by simp; omega)
    · by_cases h1 : 1 < zc
      · refine run_allocation_mono zc alloc lock enq ((zc - 1) + 1 + 1)
          ((k + 1) + zc + 1) _ _ ?_ (by omega)
        rw [run_allocation,
          step_enter_wait zc alloc lock enq v hw hlt h1 (halloc _) (henq _)]
        exact run_wait_phase zc alloc lock enq halloc henq (zc - 1) _ rfl
          (by simp; omega)
      · rw [show (k + 1) + zc + 1 = (k + zc) + 1 + 1 by omega, run_allocation,
          step_fire zc alloc lock enq v hw hlt h1 (halloc _) (henq _)]

end AVio

/-- Counterexample to claim C6 as stated: with one zone reporting
NO_SPACE and the scrubber reporting NO_SPACE, the caller's allocation
completion is fired with VDO_SUCCESS, not with NO_SPACE, because
finish_allocation converts NO_SPACE to success. -/
theorem allocation_retry_counterexample :
    AVio.run_allocation 1 (fun _ => .error Err.noSpace)
        (fun _ => Err.success) (fun _ => Err.noSpace) 2
        (AVio.initial_vio 0) = some (.fired Err.success) ∧
    AVio.finish_allocation Err.noSpace = Err.success ∧
    Err.success ≠ Err.noSpace :=
  ⟨by decide, by decide, by decide⟩

/-- Claim C6 (amended): on NO_SPACE from a zone the vio retries in the
next physical zone wrapping to zone 0; once every zone has been tried
without success it is enqueued on the scrubber as a clean-slab waiter;
and when the scrubber also reports NO_SPACE the caller's allocation
completion is fired with VDO_SUCCESS, finish_allocation having converted
NO_SPACE so the write can continue and attempt deduplication. -/
theorem allocation_zone_retry (zc : Nat) (alloc : Nat → Except Err Nat)
    (lock enq : Nat → Err) :
    (∀ v : AVio.AllocatingVio, v.wait_for_clean_slab = false →
        v.allocation_attempts + 1 < zc →
        alloc v.zone = .error Err.noSpace →
        AVio.allocate_block_in_zone zc alloc lock enq v =
          .tryNext { zone := if v.zone + 1 = zc then 0 else v.zone + 1,
                     allocation_attempts := v.allocation_attempts + 1,
                     wait_for_clean_slab := false }) ∧
    (∀ v : AVio.AllocatingVio, v.wait_for_clean_slab = false →
        ¬ v.allocation_attempts + 1 < zc →
        alloc v.zone = .error Err.noSpace → enq v.zone = Err.success →
        AVio.allocate_block_in_zone zc alloc lock enq v =
          .done .waiting) ∧
    ((∀ z, alloc z = .error Err.noSpace) → (∀ z, enq z = Err.success) →
        ∀ z0, AVio.run_allocation zc alloc lock enq (zc + 1)
            (AVio.initial_vio z0) = some .waiting) ∧
    ((∀ z, alloc z = .error Err.noSpace) → (∀ z, enq z = Err.noSpace) →
        ∀ z0, AVio.run_allocation zc alloc lock enq (2 * zc + 1)
            (AVio.initial_vio z0) = some (.fired Err.success)) := by
  refine ⟨?_, ?_, ?_, ?_⟩
  · intro v hw hz ha
    exact AVio.step_wrap zc alloc lock enq v hw hz ha
  · intro v hw hz ha he
    exact AVio.step_enqueue zc alloc lock enq v hw hz ha he
  · intro halloc henq z0
    exact AVio.run_enqueue_success zc alloc lock enq halloc henq zc
      (AVio.initial_vio z0) rfl (by simp [AVio.initial_vio])
  · intro halloc henq z0
    rw [show 2 * zc + 1 = zc + zc + 1 by omega]
    exact AVio.run_enqueue_nospace zc alloc lock enq halloc henq zc
      (AVio.initial_vio z0) rfl (by simp [AVio.initial_vio])

/-- Witness for allocation_zone_retry with two zones: a NO_SPACE result
in zone 0 hops to zone 1, a two-zone sweep ends waiting on the scrubber,
and with empty scrubbers the completion fires with SUCCESS. -/
theorem allocation_zone_retry_witness :
    AVio.allocate_block_in_zone 2 (fun _ => .error Err.noSpace)
        (fun _ => Err.success) (fun _ => Err.success)
        (AVio.initial_vio 0) =
      .tryNext { zone := 1, allocation_attempts := 1,
                 wait_for_clean_slab := false } ∧
    AVio.run_allocation 2 (fun _ => .error Err.noSpace)
        (fun _ => Err.success) (fun _ => Err.success) 3
        (AVio.initial_vio 0) = some .waiting ∧
    AVio.run_allocation 2 (fun _ => .error Err.noSpace)
        (fun _ => Err.success) (fun _ => Err.noSpace) 5
        (AVio.initial_vio 0) = some (.fired Err.success) := by
  have h := allocation_zone_retry 2 (fun _ => .error Err.noSpace)
    (fun _ => Err.success) (fun _ => Err.success)
  have h' := allocation_zone_retry 2 (fun _ => .error Err.noSpace)
    (fun _ => Err.success) (fun _ => Err.noSpace)
  exact ⟨h.1 (AVio.initial_vio 0) rfl (by decide) rfl,
    h.2.2.1 (fun _ => rfl) (fun _ => rfl) 0,
    h'.2.2.2 (fun _ => rfl) (fun _ => rfl) 0⟩

namespace UdsConfig

theorem getU32le_putU32le (n : Nat) (rest : List Nat) :
    getU32le (putU32le n ++ rest) = .ok (n % 2 ^ 32, rest) := by
  simp only [putU32le, getU32le, List.cons_append, List.nil_append,
    Except.ok.injEq, Prod.mk.injEq]
  exact ⟨by omega, trivial⟩

theorem getU64le_putU64le (n : Nat) (rest : List Nat) :
    getU64le (putU64le n ++ rest) = .ok (n % 2 ^ 64, rest) := by
  simp only [putU64le, getU64le, List.cons_append, List.nil_append,
    Except.ok.injEq, Prod.mk.injEq]
  exact ⟨by omega, trivial⟩

theorem getU64le_putU64le_nil (n : Nat) :
    getU64le (putU64le n) = .ok (n % 2 ^ 64, []) := by
  have h := getU64le_putU64le n []
  simpa using h

theorem skipForward_putU32le (n : Nat) (rest : List Nat) :
    skipForward 4 (putU32le n ++ rest) = .ok rest := rfl

/-- Decoding an encoded 06.02 payload recovers every field truncated to
its on-disk width, with zeroed remap fields. -/
theorem decode06_encode06 (c : Configuration) :
    decode_index_config_06_02 (encode_index_config_06_02 c) =
      .ok { saved_of_configuration c with
            remapped_virtual := 0, remapped_physical := 0 } := by
  simp [decode_index_config_06_02, encode_index_config_06_02,
    getU32le_putU32le, getU64le_putU64le, getU64le_putU64le_nil,
    skipForward_putU32le, saved_of_configuration, bind, Except.bind]

/-- Decoding an encoded 08.02 payload recovers every field truncated to
its on-disk width, including both remap fields. -/
theorem decode08_encode08 (c : Configuration) :
    decode_index_config_08_02 (encode_index_config_08_02 c) =
      .ok (saved_of_configuration c) := by
  simp [decode_index_config_08_02, encode_index_config_08_02,
    getU32le_putU32le, getU64le_putU64le, getU64le_putU64le_nil,
    skipForward_putU32le, saved_of_configuration, bind, Except.bind]

theorem read_from_exact (bs : List Nat) :
    ∀ rest : List Nat,
      read_from_buffered_reader bs.length (bs ++ rest) = .ok (bs, rest) := by
  induction bs with
  | nil => intro rest; rfl
  | cons b bs ih =>
    intro rest
    simp [List.length_cons, List.cons_append, read_from_buffered_reader,
      List.append_eq, ih rest]

theorem verify_self (expected : List Nat) :
    ∀ rest : List Nat,
      verify_buffered_data expected (expected ++ rest) = .ok rest := by
  induction expected with
  | nil => intro rest; rfl
  | cons e es ih =>
    intro rest
    simp [List.cons_append, verify_buffered_data, List.append_eq, ih rest]

theorem enc06_length (c : Configuration) :
    (encode_index_config_06_02 c).length = 40 := by
  simp [encode_index_config_06_02, putU32le, putU64le]

theorem enc08_length (c : Configuration) :
    (encode_index_config_08_02 c).length = 56 := by
  simp [encode_index_config_08_02, putU32le, putU64le]

theorem read_version_enc06 (c : Configuration) :
    read_version (INDEX_CONFIG_VERSION_6_02 ++ encode_index_config_06_02 c) =
      .ok (.v6_02, { saved_of_configuration c with
                     remapped_virtual := 0, remapped_physical := 0 }) := by
  have h5 : read_from_buffered_reader 5
      (INDEX_CONFIG_VERSION_6_02 ++ encode_index_config_06_02 c) =
      .ok (INDEX_CONFIG_VERSION_6_02, encode_index_config_06_02 c) :=
    read_from_exact INDEX_CONFIG_VERSION_6_02 (encode_index_config_06_02 c)
  have h40 : read_from_buffered_reader 40 (encode_index_config_06_02 c) =
      .ok (encode_index_config_06_02 c, []) := by
    have h := read_from_exact (encode_index_config_06_02 c) []
    rw [List.append_nil, enc06_length] at h
    exact h
  simp [read_version, h5, h40, decode06_encode06, bind, Except.bind,
    pure, Except.pure]

theorem read_version_enc08 (c : Configuration) :
    read_version (INDEX_CONFIG_VERSION_8_02 ++ encode_index_config_08_02 c) =
      .ok (.v8_02, saved_of_configuration c) := by
  have h5 : read_from_buffered_reader 5
      (INDEX_CONFIG_VERSION_8_02 ++ encode_index_config_08_02 c) =
      .ok (INDEX_CONFIG_VERSION_8_02, encode_index_config_08_02 c) :=
    read_from_exact INDEX_CONFIG_VERSION_8_02 (encode_index_config_08_02 c)
  have h56 : read_from_buffered_reader 56 (encode_index_config_08_02 c) =
      .ok (encode_index_config_08_02 c, []) := by
    have h := read_from_exact (encode_index_config_08_02 c) []
    rw [List.append_nil, enc08_length] at h
    exact h
  have hne : INDEX_CONFIG_VERSION_8_02 ≠ INDEX_CONFIG_VERSION_6_02 := by
    decide
  simp [read_version, h5, h56, decode08_encode08, bind, Except.bind,
    pure, Except.pure, hne]

end UdsConfig

/-- Claim C8: writing a configuration with any version below 4 and
reading it back parses as the 06.02 format with both remap fields zero,
while any version at least 4 round-trips as the 08.02 format with both
remap fields preserved; in both cases all other configuration fields
round-trip to identical values (the saved record equals the
configuration's own fields whenever they are within their on-disk
widths). -/
theorem config_write_read_roundtrip (c : UdsConfig.Configuration)
    (version : Nat) (hr : UdsConfig.fields_in_range c) :
    (version < 4 →
      UdsConfig.read_config_contents
          (UdsConfig.write_config_contents c version) =
        .ok (.v6_02, { UdsConfig.saved_of_configuration c with
                       remapped_virtual := 0, remapped_physical := 0 })) ∧
    (4 ≤ version →
      UdsConfig.read_config_contents
          (UdsConfig.write_config_contents c version) =
        .ok (.v8_02, UdsConfig.saved_of_configuration c)) ∧
    UdsConfig.saved_of_configuration c =
      { record_pages_per_chapter := c.geometry.record_pages_per_chapter,
        chapters_per_volume := c.geometry.chapters_per_volume,
        sparse_chapters_per_volume := c.geometry.sparse_chapters_per_volume,
        cache_chapters := c.cache_chapters,
        volume_index_mean_delta := c.volume_index_mean_delta,
        bytes_per_page := c.geometry.bytes_per_page,
        sparse_sample_rate := c.sparse_sample_rate,
        nonce := c.nonce,
        remapped_virtual := c.geometry.remapped_virtual,
        remapped_physical := c.geometry.remapped_physical } := by
  obtain ⟨h1, h2, h3, h4, h5, h6, h7, h8, h9, h10⟩ := hr
  refine ⟨?_, ?_, ?_⟩
  · intro hv
    simp only [UdsConfig.write_config_contents, if_pos hv]
    simp [UdsConfig.read_config_contents, UdsConfig.verify_self,
      UdsConfig.read_version_enc06, bind, Except.bind]
  · intro hv
    unfold UdsConfig.write_config_contents
    rw [if_neg (show ¬ version < 4 by omega)]
    simp [UdsConfig.read_config_contents, UdsConfig.verify_self,
      UdsConfig.read_version_enc08, bind, Except.bind]
  · unfold UdsConfig.saved_of_configuration
    congr 1 <;> omega

/-- Witness for config_write_read_roundtrip at the literal scenario of
the spec: remapped_virtual 0xDEAD and remapped_physical 0xBEEF, written
as version 3 and as version 4. -/
theorem config_write_read_roundtrip_witness :
    UdsConfig.read_config_contents
        (UdsConfig.write_config_contents
          { geometry := { record_pages_per_chapter := 4,
                          chapters_per_volume := 1024,
                          sparse_chapters_per_volume := 0,
                          bytes_per_page := 4096,
                          remapped_virtual := 57005,
                          remapped_physical := 48879 },
            cache_chapters := 7, volume_index_mean_delta := 4096,
            sparse_sample_rate := 0, nonce := 123456789 } 3) =
      .ok (.v6_02, { UdsConfig.saved_of_configuration
          { geometry := { record_pages_per_chapter := 4,
                          chapters_per_volume := 1024,
                          sparse_chapters_per_volume := 0,
                          bytes_per_page := 4096,
                          remapped_virtual := 57005,
                          remapped_physical := 48879 },
            cache_chapters := 7, volume_index_mean_delta := 4096,
            sparse_sample_rate := 0, nonce := 123456789 } with
          remapped_virtual := 0, remapped_physical := 0 }) ∧
    UdsConfig.read_config_contents
        (UdsConfig.write_config_contents
          { geometry := { record_pages_per_chapter := 4,
                          chapters_per_volume := 1024,
                          sparse_chapters_per_volume := 0,
                          bytes_per_page := 4096,
                          remapped_virtual := 57005,
                          remapped_physical := 48879 },
            cache_chapters := 7, volume_index_mean_delta := 4096,
            sparse_sample_rate := 0, nonce := 123456789 } 4) =
      .ok (.v8_02, UdsConfig.saved_of_configuration
          { geometry := { record_pages_per_chapter := 4,
                          chapters_per_volume := 1024,
                          sparse_chapters_per_volume := 0,
                          bytes_per_page := 4096,
                          remapped_virtual := 57005,
                          remapped_physical := 48879 },
            cache_chapters := 7, volume_index_mean_delta := 4096,
            sparse_sample_rate := 0, nonce := 123456789 }) := by
  constructor
  · exact (config_write_read_roundtrip _ 3 (by decide)).1 (by decide)
  · exact (config_write_read_roundtrip _ 4 (by decide)).2.1 (by decide)

/-- Claim C9: an unknown version string yields CORRUPT_COMPONENT; once a
saved configuration is read successfully, validate_config_contents
returns NO_INDEX exactly when any saved field disagrees with the
supplied configuration, and on full agreement returns success with the
saved remap fields installed into the caller's geometry. -/
theorem validate_config_contents_spec (stream : List Nat)
    (cfg : UdsConfig.Configuration) :
    (∀ vb rest : List Nat, vb.length = 5 →
        vb ≠ UdsConfig.INDEX_CONFIG_VERSION_6_02 →
        vb ≠ UdsConfig.INDEX_CONFIG_VERSION_8_02 →
        UdsConfig.validate_config_contents
            (UdsConfig.INDEX_CONFIG_MAGIC ++ (vb ++ rest)) cfg =
          .error Err.corruptComponent) ∧
    (∀ fmt saved,
        UdsConfig.read_config_contents stream = .ok (fmt, saved) →
        UdsConfig.validate_config_contents stream cfg =
          if UdsConfig.are_matching_configurations saved cfg then
            .ok { cfg with geometry :=
                  { cfg.geometry with
                    remapped_virtual := saved.remapped_virtual,
                    remapped_physical := saved.remapped_physical } }
          else .error Err.noIndex) := by
  constructor
  · intro vb rest hlen h6 h8
    have hm : UdsConfig.verify_buffered_data UdsConfig.INDEX_CONFIG_MAGIC
        (UdsConfig.INDEX_CONFIG_MAGIC ++ (vb ++ rest)) = .ok (vb ++ rest) :=
      UdsConfig.verify_self _ _
    have hv : UdsConfig.read_from_buffered_reader 5 (vb ++ rest) =
        .ok (vb, rest) := by
      have h := UdsConfig.read_from_exact vb rest
      rwa [hlen] at h
    simp [UdsConfig.validate_config_contents,
      UdsConfig.read_config_contents, UdsConfig.read_version, hm, hv, h6,
      h8, bind, Except.bind]
  · intro fmt saved h
    unfold UdsConfig.validate_config_contents
    simp only [h, bind, Except.bind]
    by_cases hm : UdsConfig.are_matching_configurations saved cfg
    · rw [if_pos hm]
      simp [hm]
    · rw [if_neg hm]
      simp [hm]

/-- Witness for validate_config_contents_spec: a version string 07.02
yields CORRUPT_COMPONENT, and with a successfully read 08.02 save the
validation outcome is decided by the field comparison. -/
theorem validate_config_contents_spec_witness :
    UdsConfig.validate_config_contents
        (UdsConfig.INDEX_CONFIG_MAGIC ++ ([48, 55, 46, 48, 50] ++ []))
        { geometry := { record_pages_per_chapter := 4,
                        chapters_per_volume := 1024,
                        sparse_chapters_per_volume := 0,
                        bytes_per_page := 4096,
                        remapped_virtual := 0, remapped_physical := 0 },
          cache_chapters := 7, volume_index_mean_delta := 4096,
          sparse_sample_rate := 0, nonce := 9 } =
      .error Err.corruptComponent ∧
    UdsConfig.validate_config_contents
        (UdsConfig.write_config_contents
          { geometry := { record_pages_per_chapter := 4,
                          chapters_per_volume := 1024,
                          sparse_chapters_per_volume := 0,
                          bytes_per_page := 4096,
                          remapped_virtual := 57005,
                          remapped_physical := 48879 },
            cache_chapters := 7, volume_index_mean_delta := 4096,
            sparse_sample_rate := 0, nonce := 9 } 4)
        { geometry := { record_pages_per_chapter := 4,
                        chapters_per_volume := 1024,
                        sparse_chapters_per_volume := 0,
                        bytes_per_page := 4096,
                        remapped_virtual := 0, remapped_physical := 0 },
          cache_chapters := 7, volume_index_mean_delta := 4096,
          sparse_sample_rate := 0, nonce := 9 } =
      (if UdsConfig.are_matching_configurations
          (UdsConfig.saved_of_configuration
            { geometry := { record_pages_per_chapter := 4,
                            chapters_per_volume := 1024,
                            sparse_chapters_per_volume := 0,
                            bytes_per_page := 4096,
                            remapped_virtual := 57005,
                            remapped_physical := 48879 },
              cache_chapters := 7, volume_index_mean_delta := 4096,
              sparse_sample_rate := 0, nonce := 9 })
          { geometry := { record_pages_per_chapter := 4,
                          chapters_per_volume := 1024,
                          sparse_chapters_per_volume := 0,
                          bytes_per_page := 4096,
                          remapped_virtual := 0, remapped_physical := 0 },
            cache_chapters := 7, volume_index_mean_delta := 4096,
            sparse_sample_rate := 0, nonce := 9 } then
        .ok { geometry := { record_pages_per_chapter := 4,
                            chapters_per_volume := 1024,
                            sparse_chapters_per_volume := 0,
                            bytes_per_page := 4096,
                            remapped_virtual := 57005,
                            remapped_physical := 48879 },
              cache_chapters := 7, volume_index_mean_delta := 4096,
              sparse_sample_rate := 0, nonce := 9 }
      else .error Err.noIndex) := by
  constructor
  · exact (validate_config_contents_spec [] _).1 [48, 55, 46, 48, 50] []
      rfl (by decide) (by decide)
  · exact (validate_config_contents_spec _ _).2 .v8_02
      (UdsConfig.saved_of_configuration _) rfl
